import Mathlib

/-!
Shallow embedding of the wsserver chat router (`src/server/chat/ChatServer.cpp`
and `src/server/Settings.hpp`).  Pure data is translated into Lean structures;
the stateful handlers become explicit state-passing functions; the asynchronous
transport sends are recorded as actions in a trace.  Components of the
repository whose sources are not under `src/` (MessagePayload, the
ConnectionStorage, Statistics, the helpers and the C++ standard library) are
modelled from the specification; each such definition says so in its doc
comment.
-/

namespace wss

/-- Source `wss::user_id_t`: an unsigned 64-bit user identifier.  The handlers
never do arithmetic on it, so it is embedded as `Nat`. -/
abbrev user_id_t := Nat

/-- Source `wss::conn_id_t`: a unique token per physical connection. -/
abbrev conn_id_t := Nat

/-- Close status codes (spec section 6; the numeric constants of the missing
header, `STATUS_*` in ChatServer.cpp). -/
def STATUS_UNAUTHORIZED : Nat := 4001

/-- Close code for a bad or missing `id` query parameter. -/
def STATUS_INVALID_QUERY_PARAMS : Nat := 4002

/-- Close code for a payload that fails to parse. -/
def STATUS_INVALID_MESSAGE_PAYLOAD : Nat := 4003

/-- Close code for an oversize message. -/
def STATUS_MESSAGE_TOO_BIG : Nat := 4004

/-- Close code used by the watchdog for idle connections. -/
def STATUS_INACTIVE_CONNECTION : Nat := 4005

/-- WebSocket frame opcode constants used by `onMessage` (values of the
`FLAG_*` constants from the missing header; fin bit 0x80 plus RFC 6455
opcode). -/
def FLAG_FRAME_TEXT : Nat := 129

/-- Final binary frame. -/
def FLAG_FRAME_BINARY : Nat := 130

/-- First fragment of a fragmented text message. -/
def FLAG_FRAGMENT_BEGIN_TEXT : Nat := 1

/-- First fragment of a fragmented binary message. -/
def FLAG_FRAGMENT_BEGIN_BINARY : Nat := 2

/-- Middle fragment (continuation, fin bit clear). -/
def FLAG_FRAGMENT_CONTINUE : Nat := 0

/-- Last fragment (continuation with fin bit set). -/
def FLAG_FRAGMENT_END : Nat := 128

/-- Ping control frame. -/
def FLAG_PING : Nat := 137

/-- Pong control frame. -/
def FLAG_PONG : Nat := 138

/-- Modelled from the spec: `wss::helpers::humanReadableBytes` (helpers.h is
not under `src/`); renders a byte count with a unit suffix. -/
def humanReadableBytes (n : Nat) : String :=
  if n ≥ 1048576 then toString (n / 1048576) ++ "M"
  else if n ≥ 1024 then toString (n / 1024) ++ "K"
  else toString n ++ "B"

/-- Modelled from the spec: `toolboxpp::strings::equalsIgnoreCase` (the
toolboxpp library is external): case-insensitive string equality. -/
def equalsIgnoreCase (a b : String) : Bool :=
  a.toLower == b.toLower

/-- Association-list lookup, first match wins; models lookups into the C++
`std::unordered_map`/`std::map` members (the embedding never creates duplicate
keys). -/
def assocFind {α β : Type} [DecidableEq α] : List (α × β) → α → Option β
  | [], _ => none
  | (k, v) :: rest, key => if k = key then some v else assocFind rest key

/-- Replace the value stored under `key` (no-op for absent keys); models an
in-place update of an existing `std::unordered_map` entry. -/
def assocReplace {α β : Type} [DecidableEq α] : List (α × β) → α → β → List (α × β)
  | [], _, _ => []
  | (k, w) :: rest, key, v =>
    (if k = key then (k, v) else (k, w)) :: assocReplace rest key v

/-- Erase every entry stored under `key`; models `std::unordered_map::erase`. -/
def assocErase {α β : Type} [DecidableEq α] : List (α × β) → α → List (α × β)
  | [], _ => []
  | (k, w) :: rest, key =>
    if k = key then assocErase rest key else (k, w) :: assocErase rest key

/-- Source `wss::MessagePayload` (its implementation is not under `src/`; the
fields follow spec section 3: sender, recipient set, type tag, body, validity
flag and error text). -/
structure MessagePayload where
  sender : user_id_t
  recipients : List user_id_t
  type : String
  body : String
  valid : Bool
  error : String
deriving DecidableEq, Repr

/-- Modelled from the spec: the default-constructed `MessagePayload` used by
`onMessage` before any branch assigns it (an empty, invalid payload). -/
def MessagePayload.default : MessagePayload :=
  { sender := 0, recipients := [], type := "", body := "", valid := false, error := "" }

/-- Modelled from the spec: `MessagePayload::isValid`. -/
def MessagePayload.isValid (p : MessagePayload) : Bool := p.valid

/-- Modelled from the spec: `MessagePayload::getError`. -/
def MessagePayload.getError (p : MessagePayload) : String := p.error

/-- Modelled from the spec: `MessagePayload::getType`. -/
def MessagePayload.getType (p : MessagePayload) : String := p.type

/-- Modelled from the spec: `MessagePayload::getSender`. -/
def MessagePayload.getSender (p : MessagePayload) : user_id_t := p.sender

/-- Modelled from the spec: `MessagePayload::getRecipients`. -/
def MessagePayload.getRecipients (p : MessagePayload) : List user_id_t := p.recipients

/-- Modelled from the spec: the reserved sent-status type tag
(`message_sent`). -/
def typeMessageSent : String := "message_sent"

/-- Modelled from the spec: `MessagePayload::isTypeOfSentStatus` — true iff
the type equals the reserved sent-status tag. -/
def MessagePayload.isTypeOfSentStatus (p : MessagePayload) : Bool :=
  p.type == typeMessageSent

/-- Modelled from the spec: `MessagePayload::isForBot` — true iff the
recipient set contains the reserved UserId 0. -/
def MessagePayload.isForBot (p : MessagePayload) : Bool :=
  p.recipients.any (fun r => r == 0)

/-- Modelled from the spec: `MessagePayload::setRecipient` — a copy of the
payload whose recipient set is exactly the one given user. -/
def MessagePayload.setRecipient (p : MessagePayload) (uid : user_id_t) : MessagePayload :=
  { p with recipients := [uid] }

/-- Modelled from the spec: `MessagePayload::createSendStatus` — a derived
payload of the sent-status type acknowledging delivery of the original back to
its sender. -/
def MessagePayload.createSendStatus (original : MessagePayload) : MessagePayload :=
  { sender := 0
    recipients := [original.sender]
    type := typeMessageSent
    body := original.type
    valid := true
    error := "" }

/-- Modelled from the spec: `MessagePayload::toJson` — canonical wire
serialization (spec section 6). -/
def MessagePayload.toJson (p : MessagePayload) : String :=
  "\x7b\"type\":\"" ++ p.type ++ "\",\"sender\":" ++ toString p.sender
    ++ ",\"recipients\":" ++ toString p.recipients
    ++ ",\"body\":\"" ++ p.body ++ "\"\x7d"

/-- Source `m_frameBuffer`: per-sender reassembly scratch for fragmented
frames, a map from sender id to the accumulated bytes (`std::stringstream`
contents). -/
abbrev FrameBuffer := List (user_id_t × String)

/-- Source `wss::ChatServer::hasFrameBuffer`. -/
def hasFrameBuffer (fb : FrameBuffer) (senderId : user_id_t) : Bool :=
  (assocFind fb senderId).isSome

/-- Source `wss::ChatServer::writeFrameBuffer`: creates the buffer when
absent; clears it first when `clear` is set; then appends `input`. -/
def writeFrameBuffer (fb : FrameBuffer) (senderId : user_id_t) (input : String)
    (clear : Bool) : FrameBuffer :=
  match assocFind fb senderId with
  | none => (senderId, input) :: fb
  | some old => assocReplace fb senderId (if clear then input else old ++ input)

/-- Source `wss::ChatServer::readFrameBuffer`: returns the accumulated bytes
(empty when no buffer exists, creating no entry); when `clear` is set, the
entry is erased. -/
def readFrameBuffer (fb : FrameBuffer) (senderId : user_id_t) (clear : Bool) :
    String × FrameBuffer :=
  match assocFind fb senderId with
  | none => ("", fb)
  | some out => (out, if clear then assocErase fb senderId else fb)

/-- Configuration values the ChatServer reads while handling a message: its
`m_maxMessageSize` member, the `m_enableMessageDeliveryStatus` member and the
chat options it reads from the global `wss::Settings::get()` singleton.  The
send-back fields come from the `base/Settings.hpp` header of the build, which
is not under `src/`; they are modelled from the spec (section 6,
`chat.message` group). -/
structure ChatConfig where
  maxMessageSize : Nat := 10 * 1024 * 1024
  enableSendBack : Bool := false
  ignoreTypesSendBack : List String := []
  enableUndeliveredQueue : Bool := true
  enableMessageDeliveryStatus : Bool := false
deriving DecidableEq, Repr

/-- Observable action of the `onMessage` handler: a `sendClose` on the
incoming connection, the send-back call `sendTo(payload.getSender(), payload)`,
or the routing call `send(payload)`. -/
inductive MsgAction where
  | close (status : Nat) (reason : String)
  | sendBack (uid : user_id_t) (payload : MessagePayload)
  | route (payload : MessagePayload)
deriving DecidableEq, Repr

/-- Result of one `onMessage` invocation: the new frame buffer and the emitted
actions in order. -/
structure OnMessageResult where
  buffer : FrameBuffer
  actions : List MsgAction
deriving DecidableEq, Repr

/-- Tail of `wss::ChatServer::onMessage` after `payload` has been assigned
(ChatServer.cpp lines 236–255): validity check, optional send-back, then
routing. -/
def finishPayload (cfg : ChatConfig) (payload : MessagePayload) (fb : FrameBuffer) :
    OnMessageResult :=
  if !payload.isValid then
    ⟨fb, [.close STATUS_INVALID_MESSAGE_PAYLOAD ("Invalid payload. " ++ payload.getError)]⟩
  else
    let isIgnoredType := cfg.ignoreTypesSendBack.any (fun ignore =>
      equalsIgnoreCase payload.getType ignore)
    let sendBackActs : List MsgAction :=
      if cfg.enableSendBack && (!isIgnoredType && !payload.isForBot) then
        [.sendBack payload.getSender payload]
      else []
    ⟨fb, sendBackActs ++ [.route payload]⟩

/-- Source `wss::ChatServer::onMessage` (ChatServer.cpp lines 193–255).
`parse` stands for the `MessagePayload(std::string)` constructor, whose
implementation is not under `src/`; the handler is parametric in it.
`senderId` is `connection->getId()`, `opcode` is `message->fin_rsv_opcode` and
`bytes` is `message->string()`. -/
def onMessage (cfg : ChatConfig) (parse : String → MessagePayload)
    (senderId : user_id_t) (fb : FrameBuffer) (opcode : Nat) (bytes : String) :
    OnMessageResult :=
  if opcode ≠ FLAG_FRAME_TEXT ∧ opcode ≠ FLAG_FRAME_BINARY then
    if opcode = FLAG_FRAGMENT_BEGIN_TEXT ∨ opcode = FLAG_FRAGMENT_BEGIN_BINARY then
      ⟨writeFrameBuffer fb senderId bytes true, []⟩
    else if opcode = FLAG_FRAGMENT_CONTINUE then
      ⟨writeFrameBuffer fb senderId bytes false, []⟩
    else if opcode = FLAG_FRAGMENT_END then
      let rd := readFrameBuffer fb senderId true
      let buffered := rd.1 ++ bytes
      if buffered.length > cfg.maxMessageSize then
        ⟨rd.2, [.close STATUS_MESSAGE_TOO_BIG
          ("Message to big. Maximum size: " ++ humanReadableBytes cfg.maxMessageSize)]⟩
      else
        finishPayload cfg (parse buffered) rd.2
    else
      finishPayload cfg MessagePayload.default fb
  else
    finishPayload cfg (parse bytes) fb

/-- Concrete stand-in for the `MessagePayload(std::string)` JSON constructor
(not under `src/`), used only to instantiate counterexamples and witnesses:
it accepts every input as a valid payload from user 1 to user 2 carrying the
input as body. -/
def parseStub (s : String) : MessagePayload :=
  { sender := 1, recipients := [2], type := "msg", body := s, valid := true, error := "" }

end wss

namespace wss

/-- Minimal model of an `nlohmann::json` document: null, booleans, numbers,
strings, arrays and objects.  Numbers are embedded as `Int` (the configuration
only uses integral values).  Type-mismatched reads, which throw in nlohmann,
are modelled as returning the caller's default. -/
inductive Json where
  | null
  | bool (b : Bool)
  | num (n : Int)
  | str (s : String)
  | arr (elems : List Json)
  | obj (fields : List (String × Json))
deriving Repr

/-- Object member lookup; models `j.find(key) != j.end()` / `j[key]`. -/
def Json.find? : Json → String → Option Json
  | .obj fields, key => assocFind fields key
  | _, _ => none

/-- Models `j.value(key, default)` for a string-typed target. -/
def Json.valueStr (j : Json) (key : String) (dflt : String) : String :=
  match j.find? key with
  | some (.str s) => s
  | _ => dflt

/-- Models `j.value(key, default)` for a boolean-typed target. -/
def Json.valueBool (j : Json) (key : String) (dflt : Bool) : Bool :=
  match j.find? key with
  | some (.bool b) => b
  | _ => dflt

/-- Models `j.value(key, default)` for an unsigned integral target. -/
def Json.valueNat (j : Json) (key : String) (dflt : Nat) : Nat :=
  match j.find? key with
  | some (.num n) => n.toNat
  | _ => dflt

/-- Models `j.value(key, default)` for a signed integral target. -/
def Json.valueInt (j : Json) (key : String) (dflt : Int) : Int :=
  match j.find? key with
  | some (.num n) => n
  | _ => dflt

/-- Source `wss::AuthSettings` (Settings.hpp lines 20–23). -/
structure AuthSettings where
  type : String := "noauth"
  data : Json := .null
deriving Repr

/-- Source `wss::Server::Secure` (Settings.hpp lines 26–30). -/
structure Secure where
  enabled : Bool := false
  crtPath : String := ""
  keyPath : String := ""
deriving Repr

/-- Source `wss::Server::Watchdog` (Settings.hpp lines 32–35). -/
structure Watchdog where
  enabled : Bool := false
  connectionLifetimeSeconds : Int := 600
deriving Repr

/-- Source `wss::Server` (Settings.hpp lines 25–44); `port` and `workers` are
embedded as `Nat` (uint16/uint32 in the source). -/
structure Server where
  endpoint : String := "/chat"
  address : String := "*"
  port : Nat := 8085
  workers : Nat := 8
  tmpDir : String := "/tmp"
  allowOverrideConnection : Bool := false
  watchdog : Watchdog := {}
deriving Repr

/-- Source `wss::RestApi` (Settings.hpp lines 45–50). -/
structure RestApi where
  enabled : Bool := false
  address : String := "*"
  port : Nat := 8082
  auth : AuthSettings := {}
deriving Repr

/-- Source `wss::Chat::Message` (Settings.hpp lines 52–55); note the struct
has only `maxSize` and `enableDeliveryStatus`. -/
structure ChatMessage where
  maxSize : String := "10M"
  enableDeliveryStatus : Bool := false
deriving Repr

/-- Source `wss::Chat` (Settings.hpp lines 51–58). -/
structure Chat where
  message : ChatMessage := {}
  enableUndeliveredQueue : Bool := true
deriving Repr

/-- Source `wss::Event` (Settings.hpp lines 59–66). -/
structure Event where
  enabled : Bool := false
  enableRetry : Bool := false
  retryIntervalSeconds : Int := 10
  retryCount : Int := 3
  sendStrategy : String := "onlineOnly"
  targets : Json := .null
deriving Repr

/-- Source `wss::Settings` (Settings.hpp lines 68–77); the process-wide
configuration value. -/
structure Settings where
  server : Server := {}
  restApi : RestApi := {}
  chat : Chat := {}
  event : Event := {}
deriving Repr

/-- Source `wss::from_json` (Settings.hpp lines 79–129).  `hardwareConcurrency`
stands for `std::thread::hardware_concurrency()`.  The two `at(...)` accesses
that can throw (`j.at("server")` and `event.at("targets")`) are modelled by
returning `none`.  Each `setConfig(path, src, name)` in the source expands to
`path = src.value(name, path)`. -/
def from_json (j : Json) (hardwareConcurrency : Nat) : Option Settings :=
  match j.find? "server" with
  | none => none
  | some server =>
    let s : Settings := {}
    let s := { s with
      server.address := server.valueStr "address" s.server.address
      server.endpoint := server.valueStr "endpoint" s.server.endpoint
      server.port := server.valueNat "port" s.server.port
      server.allowOverrideConnection :=
        server.valueBool "allowOverrideConnection" s.server.allowOverrideConnection }
    let nativeThreadsMax := if hardwareConcurrency = 0 then 2 else hardwareConcurrency
    let s := { s with
      server.workers := server.valueNat "workers" nativeThreadsMax
      server.tmpDir := server.valueStr "tmpDir" s.server.tmpDir }
    let s :=
      match server.find? "watchdog" with
      | none => s
      | some watchdog =>
        let s := { s with
          server.watchdog.enabled := watchdog.valueBool "enabled" s.server.watchdog.enabled }
        if s.server.watchdog.enabled then
          let lifetime := watchdog.valueInt "connectionLifetimeSeconds" s.server.watchdog.connectionLifetimeSeconds
          { s with server.watchdog.connectionLifetimeSeconds := lifetime }
        else s
    let s :=
      match j.find? "restApi" with
      | none => s
      | some restApi =>
        if restApi.valueBool "enabled" s.restApi.enabled then
          let s := { s with
            restApi.enabled := restApi.valueBool "enabled" s.restApi.enabled
            restApi.port := restApi.valueNat "port" s.restApi.port
            restApi.address := restApi.valueStr "address" s.restApi.address }
          match restApi.find? "auth" with
          | none => s
          | some auth =>
            { s with restApi.auth :=
                { type := auth.valueStr "type" "noauth", data := auth } }
        else s
    let s :=
      match j.find? "chat" with
      | none => s
      | some chat =>
        { s with
          chat.message.maxSize := chat.valueStr "maxSize" s.chat.message.maxSize
          chat.message.enableDeliveryStatus :=
            chat.valueBool "enableDeliveryStatus" s.chat.message.enableDeliveryStatus
          chat.enableUndeliveredQueue :=
            chat.valueBool "enableUndeliveredQueue" s.chat.enableUndeliveredQueue }
    match j.find? "event" with
    | none => some s
    | some event =>
      let s := { s with event.enabled := event.valueBool "enabled" s.event.enabled }
      if s.event.enabled then
        let s := { s with
          event.enableRetry := event.valueBool "enableRetry" s.event.enableRetry
          event.retryIntervalSeconds :=
            event.valueInt "retryIntervalSeconds" s.event.retryIntervalSeconds
          event.retryCount := event.valueInt "retryCount" s.event.retryCount
          event.sendStrategy := event.valueStr "sendStrategy" s.event.sendStrategy }
        match event.find? "targets" with
        | none => none
        | some targets => some { s with event.targets := targets }
      else some s

end wss

namespace wss

/-- Liveness state of a registered connection (spec section 2,
ConnectionStorage). -/
inductive Liveness where
  | active
  | awaitingPong
deriving DecidableEq, Repr

/-- One registered connection: user id, unique connection id and liveness.
Models an entry of the `user → (conn-id → connection)` map of
`wss::ConnectionStorage` (its implementation is not under `src/`; shape from
spec sections 3 and 4.2). -/
structure Conn where
  uid : user_id_t
  cid : conn_id_t
  liveness : Liveness
deriving DecidableEq, Repr

/-- Modelled from the spec: the ConnectionStorage registry, flattened to a
list of connections. -/
abbrev Storage := List Conn

/-- Modelled from the spec: `ConnectionStorage::add` — registers a
connection, initially active. -/
def storageAdd (st : Storage) (uid : user_id_t) (cid : conn_id_t) : Storage :=
  st ++ [⟨uid, cid, .active⟩]

/-- Modelled from the spec: `ConnectionStorage::remove(user-id, conn-id)` —
idempotent removal. -/
def storageRemove (st : Storage) (uid : user_id_t) (cid : conn_id_t) : Storage :=
  st.filter (fun c => !(c.uid == uid && c.cid == cid))

/-- Modelled from the spec: `ConnectionStorage::exists(user-id)`. -/
def storageExists (st : Storage) (uid : user_id_t) : Bool :=
  st.any (fun c => c.uid == uid)

/-- Modelled from the spec: `ConnectionStorage::size(user-id)`. -/
def storageSize (st : Storage) (uid : user_id_t) : Nat :=
  (st.filter (fun c => c.uid == uid)).length

/-- Modelled from the spec: `ConnectionStorage::get(user-id)` — the user's
connections (empty when the user is absent; the C++ throws `ConnectionNotFound`
there, which `sendTo` never reaches because it checks `size` first). -/
def storageGet (st : Storage) (uid : user_id_t) : List Conn :=
  st.filter (fun c => c.uid == uid)

/-- Modelled from the spec: `ConnectionStorage::markPongWait` — sets the given
connection's liveness to awaiting-pong. -/
def markPongWait (st : Storage) (cid : conn_id_t) : Storage :=
  st.map (fun c => if c.cid = cid then { c with liveness := .awaitingPong } else c)

/-- Modelled from the spec: `ConnectionStorage::markPongReceived` — sets the
given connection's liveness back to active (the last-activity timestamp update
is outside this model). -/
def markPongReceived (st : Storage) (cid : conn_id_t) : Storage :=
  st.map (fun c => if c.cid = cid then { c with liveness := .active } else c)

/-- Modelled from the spec: `ConnectionStorage::disconnectWithoutPong` —
closes and removes every connection still awaiting a pong and returns the
removed count. -/
def disconnectWithoutPong (st : Storage) : Nat × Storage :=
  ((st.filter (fun c => c.liveness == .awaitingPong)).length,
   st.filter (fun c => c.liveness != .awaitingPong))

/-- Modelled from the spec: one user's `wss::Statistics` record (its
implementation is not under `src/`); the counters of spec sections 3 and 4.5.
The timestamps are outside this model: the watchdog receives the per-user
inactive time as an oracle instead. -/
structure Statistics where
  connections : Nat := 0
  disconnections : Nat := 0
  sentCount : Nat := 0
  receivedCount : Nat := 0
  bytesTransferred : Nat := 0
deriving DecidableEq, Repr

/-- Source `m_statistics`: the per-user statistics map. -/
abbrev StatsMap := List (user_id_t × Statistics)

/-- Source `wss::ChatServer::getStat` followed by a mutation: lazily creates
the user's record, then applies the update to it. -/
def updateStat (stats : StatsMap) (uid : user_id_t) (f : Statistics → Statistics) :
    StatsMap :=
  match assocFind stats uid with
  | none => stats ++ [(uid, f {})]
  | some _ => assocReplace stats uid (f ((assocFind stats uid).getD {}))

/-- Read accessor on the statistics map (absent users read as a fresh
record). -/
def getStatD (stats : StatsMap) (uid : user_id_t) : Statistics :=
  (assocFind stats uid).getD {}

/-- Source `m_undeliveredMessagesMap`: per-recipient FIFO queue of payloads. -/
abbrev UndeliveredMap := List (user_id_t × List MessagePayload)

/-- Queue of one recipient (absent recipients read as the empty queue, as with
the `operator[]` access of the source). -/
def queueOf (q : UndeliveredMap) (uid : user_id_t) : List MessagePayload :=
  (assocFind q uid).getD []

/-- Append one payload to one recipient's queue (`m_undeliveredMessagesMap
[recipient].push(payload)`). -/
def pushQueue (q : UndeliveredMap) (uid : user_id_t) (payload : MessagePayload) :
    UndeliveredMap :=
  match assocFind q uid with
  | none => q ++ [(uid, [payload])]
  | some l => assocReplace q uid (l ++ [payload])

/-- Set one recipient's queue to a new value (used to model draining). -/
def setQueue (q : UndeliveredMap) (uid : user_id_t) (l : List MessagePayload) :
    UndeliveredMap :=
  match assocFind q uid with
  | none => q ++ [(uid, l)]
  | some _ => assocReplace q uid l

/-- Source `wss::ChatServer::enqueueUndeliveredMessage`: pushes the payload to
the queue of each of its recipients. -/
def enqueueUndeliveredMessage (q : UndeliveredMap) (payload : MessagePayload) :
    UndeliveredMap :=
  payload.getRecipients.foldl (fun acc r => pushQueue acc r payload) q

/-- Mutable state of the ChatServer that the routing path touches: the
connection registry, the undelivered queue and the statistics map. -/
structure ChatState where
  storage : Storage
  undelivered : UndeliveredMap
  statistics : StatsMap
deriving DecidableEq, Repr

/-- Source `wss::ChatServer::onMessageSent` (ChatServer.cpp lines 257–274):
returns the updated statistics and the optional sent-status payload handed to
`send` (the recursive routing of that payload is the caller's trace). -/
def onMessageSent (cfg : ChatConfig) (payload : MessagePayload)
    (bytesTransferred : Nat) (hasSent : Bool) (stats : StatsMap) :
    StatsMap × Option MessagePayload :=
  if payload.isTypeOfSentStatus then (stats, none)
  else
    let stats := updateStat stats payload.getSender (fun s =>
      { s with sentCount := s.sentCount + 1,
               bytesTransferred := s.bytesTransferred + bytesTransferred })
    let stats := payload.getRecipients.foldl (fun acc i =>
      if hasSent then
        updateStat acc i (fun s =>
          { s with receivedCount := s.receivedCount + 1,
                   bytesTransferred := s.bytesTransferred + bytesTransferred })
      else acc) stats
    if cfg.enableMessageDeliveryStatus && hasSent then
      (stats, some (MessagePayload.createSendStatus payload))
    else (stats, none)

/-- Source `wss::ChatServer::handleUndeliverable` (ChatServer.cpp lines
520–530): drops the payload when the undelivered-queue feature is disabled;
otherwise enqueues a copy whose recipient set is exactly the failed target. -/
def handleUndeliverable (cfg : ChatConfig) (uid : user_id_t)
    (payload : MessagePayload) (st : ChatState) : ChatState :=
  if !cfg.enableUndeliveredQueue then st
  else
    let inaccessibleUserPayload := payload.setRecipient uid
    { st with undelivered := enqueueUndeliveredMessage st.undelivered inaccessibleUserPayload }

/-- Observable action of `sendTo`: an asynchronous socket send issued to one
connection, an `onMessageSent` accounting call, or the routing of a freshly
created sent-status payload. -/
inductive SendAction where
  | socketSend (cid : conn_id_t) (bytes : String)
  | accounting (payload : MessagePayload) (bytes : Nat) (hasSent : Bool)
  | routeStatus (payload : MessagePayload)
deriving DecidableEq, Repr

/-- Source `wss::ChatServer::sendTo` (ChatServer.cpp lines 446–518), the
synchronous part: with no live connection of the recipient it handles the
payload as undeliverable and records a failed-send accounting event; otherwise
it issues one asynchronous socket send per connection of the recipient (the
completion callbacks run later and are not part of this call). -/
def sendTo (cfg : ChatConfig) (recipient : user_id_t) (payload : MessagePayload)
    (st : ChatState) : ChatState × List SendAction :=
  let payloadString := payload.toJson
  let payloadSize := payloadString.length
  if storageSize st.storage recipient = 0 then
    let st1 := handleUndeliverable cfg recipient payload st
    let sent := payload.setRecipient recipient
    let r := onMessageSent cfg sent payloadSize false st1.statistics
    ({ st1 with statistics := r.1 },
     .accounting sent payloadSize false ::
       (match r.2 with
        | some status => [.routeStatus status]
        | none => []))
  else
    (st, (storageGet st.storage recipient).map (fun c => .socketSend c.cid payloadString))

/-- Source `wss::ChatServer::redeliverMessagesTo(user_id_t)` while-loop
(ChatServer.cpp lines 416–421): pops the queue front and sends it until the
queue is empty, counting the redeliveries; returns the count and the payloads
handed to `send` in pop order. -/
def redeliverLoop : List MessagePayload → Nat × List MessagePayload
  | [] => (0, [])
  | payload :: rest =>
    let r := redeliverLoop rest
    (r.1 + 1, payload :: r.2)

/-- Source `wss::ChatServer::redeliverMessagesTo(user_id_t)` (ChatServer.cpp
lines 404–424): returns the redelivered count, the state after draining and
the payloads handed to `send` in insertion order. -/
def redeliverMessagesTo (cfg : ChatConfig) (recipientId : user_id_t)
    (st : ChatState) : Nat × ChatState × List MessagePayload :=
  if !cfg.enableUndeliveredQueue then (0, st, [])
  else if (queueOf st.undelivered recipientId).isEmpty then (0, st, [])
  else
    let r := redeliverLoop (queueOf st.undelivered recipientId)
    (r.1, { st with undelivered := setQueue st.undelivered recipientId [] }, r.2)

end wss

namespace wss

/-- Result of the C++ `std::stoul` call: a parsed value, or one of the two
exceptions it can throw. -/
inductive StoulResult where
  | ok (value : Nat)
  | invalidArg
  | outOfRange
deriving DecidableEq, Repr

/-- Largest value of the C++ `unsigned long` on the 64-bit target. -/
def ULONG_MAX : Nat := 2 ^ 64 - 1

/-- Modelled from the spec (C++ standard library): `std::stoul(s)` in base 10.
Leading whitespace is skipped, an optional sign is read, then the longest
digit prefix; no digits throws `std::invalid_argument`, a magnitude above
`ULONG_MAX` throws `std::out_of_range`, and a negative sign wraps the value
modulo 2^64 as `strtoul` does. -/
def stoul (s : String) : StoulResult :=
  let cs := s.toList.dropWhile Char.isWhitespace
  let signed : Bool × List Char :=
    match cs with
    | '-' :: rest => (true, rest)
    | '+' :: rest => (false, rest)
    | _ => (false, cs)
  let digits := signed.2.takeWhile Char.isDigit
  if digits.isEmpty then .invalidArg
  else
    let m := digits.foldl (fun acc c => acc * 10 + (c.toNat - 48)) 0
    if m > ULONG_MAX then .outOfRange
    else .ok (if signed.1 then (2 ^ 64 - m % 2 ^ 64) % 2 ^ 64 else m)

/-- Outcome of one `onConnected` call: a `sendClose` with status and reason, a
successful registration, or an exception escaping the handler. -/
inductive ConnectOutcome where
  | closed (status : Nat) (reason : String)
  | registered (uid : user_id_t)
  | threw (what : String)
deriving DecidableEq, Repr

/-- Query parameters of the upgrade request, as parsed by
`wss::web::Request::parseParamsString` (not under `src/`): key/value pairs;
`getParam` returns the first match or the empty string. -/
abbrev Params := List (String × String)

/-- Modelled from the spec: `Request::getParam` (empty string when absent). -/
def getParam (params : Params) (key : String) : String :=
  (assocFind params key).getD ""

/-- Modelled from the spec: `Request::hasParam`. -/
def hasParam (params : Params) (key : String) : Bool :=
  (assocFind params key).isSome

/-- Source `wss::ChatServer::onConnected` (ChatServer.cpp lines 276–318).
`authOk` is the result of `m_auth->validateAuth(request)` (the authenticator
implementations are not under `src/`).  On success the connection is
registered, the user's connection counter is incremented, and the undelivered
queue is drained; the drained payloads handed to `send` are returned last.
The `std::stoul` call catches only `std::invalid_argument`; an
`std::out_of_range` escapes the handler, modelled by the `threw` outcome. -/
def onConnected (cfg : ChatConfig) (authOk : Bool) (params : Params)
    (cid : conn_id_t) (st : ChatState) :
    ConnectOutcome × ChatState × List MessagePayload :=
  if !authOk then (.closed STATUS_UNAUTHORIZED "Unauthorized", st, [])
  else if params.isEmpty then
    (.closed STATUS_INVALID_QUERY_PARAMS "Invalid request", st, [])
  else if !hasParam params "id" || getParam params "id" == "" then
    (.closed STATUS_INVALID_QUERY_PARAMS "Id required in query parameter: ?id=\x7bid\x7d", st, [])
  else
    match stoul (getParam params "id") with
    | .invalidArg =>
      (.closed STATUS_INVALID_QUERY_PARAMS
        ("Passed invalid id: id=" ++ getParam params "id" ++ ". stoul"), st, [])
    | .outOfRange => (.threw "stoul", st, [])
    | .ok id =>
      let st1 := { st with
        storage := storageAdd st.storage id cid,
        statistics := updateStat st.statistics id (fun s =>
          { s with connections := s.connections + 1 }) }
      let r := redeliverMessagesTo cfg id st1
      (.registered id, r.2.1, r.2.2)

/-- Source `wss::ChatServer::onDisconnected` (ChatServer.cpp lines 319–333):
returns unchanged state when the user no longer exists in storage; otherwise
increments the user's disconnection counter and removes the connection.
`uid` is `connection->getId()` and `cid` is `connection->getUniqueId()`. -/
def onDisconnected (uid : user_id_t) (cid : conn_id_t) (st : ChatState) : ChatState :=
  if !storageExists st.storage uid then st
  else
    { st with
      statistics := updateStat st.statistics uid (fun s =>
        { s with disconnections := s.disconnections + 1 }),
      storage := storageRemove st.storage uid cid }

/-- Observable action of one watchdog pass over the snapshot: a `sendClose`
for an idle connection, or a PING send. -/
inductive WatchdogAction where
  | close (cid : conn_id_t) (status : Nat) (reason : String)
  | ping (cid : conn_id_t)
deriving DecidableEq, Repr

/-- Reason string of the idle-eviction close, from the
`fmt::format("Inactive more than {0:d} seconds ({1:d})", ...)` call. -/
def inactiveReason (lifetime inactiveTime : Nat) : String :=
  "Inactive more than " ++ toString lifetime ++ " seconds (" ++ toString inactiveTime ++ ")"

/-- Loop body of the watchdog's pass over one snapshotted connection
(ChatServer.cpp lines 150–174): an idle connection gets a close (and stays in
storage); otherwise a one-byte PING is sent, whose completion callback marks
the connection awaiting-pong on success and removes it on any error.
`inactive` gives each user's `getInactiveTime()` and `sendOk` the PING send
outcome. -/
def watchdogStep (lifetime : Nat) (inactive : user_id_t → Nat)
    (sendOk : conn_id_t → Bool) (acc : Storage × List WatchdogAction) (c : Conn) :
    Storage × List WatchdogAction :=
  if lifetime ≤ inactive c.uid then
    (acc.1, acc.2 ++ [.close c.cid STATUS_INACTIVE_CONNECTION
      (inactiveReason lifetime (inactive c.uid))])
  else if sendOk c.cid then
    (markPongWait acc.1 c.cid, acc.2 ++ [.ping c.cid])
  else
    (storageRemove acc.1 c.uid c.cid, acc.2 ++ [.ping c.cid])

/-- First phase of one watchdog tick (ChatServer.cpp lines 147–176): fold the
loop body over the snapshot of the storage. -/
def watchdogPhase1 (lifetime : Nat) (inactive : user_id_t → Nat)
    (sendOk : conn_id_t → Bool) (storage : Storage) :
    Storage × List WatchdogAction :=
  storage.foldl (watchdogStep lifetime inactive sendOk) (storage, [])

/-- Pong frames delivered by the transport during the two-second sleep between
the two phases: each arriving pong runs `onPong` (ChatServer.cpp lines
189–191), i.e. `markPongReceived`. -/
def applyPongs (pong : conn_id_t → Bool) (storage : Storage) : Storage :=
  storage.map (fun c => if pong c.cid then { c with liveness := .active } else c)

/-- One iteration of `wss::ChatServer::watchdogWorker` (ChatServer.cpp lines
145–183), the two sleeps elided: the pass over the snapshot, the pong arrivals
of the two-second window, then `disconnectWithoutPong`.  Returns the final
storage, the emitted actions and the disconnect count. -/
def watchdogTick (lifetime : Nat) (inactive : user_id_t → Nat)
    (sendOk : conn_id_t → Bool) (pong : conn_id_t → Bool) (storage : Storage) :
    Storage × List WatchdogAction × Nat :=
  let r1 := watchdogPhase1 lifetime inactive sendOk storage
  let afterPong := applyPongs pong r1.1
  let r2 := disconnectWithoutPong afterPong
  (r2.2, r1.2, r2.1)

/-- Per-connection outcome of the first watchdog phase, used to state what the
fold computes: idle connections stay untouched, pinged connections become
awaiting-pong when the send succeeded and are removed when it failed. -/
def connFate (lifetime : Nat) (inactive : user_id_t → Nat)
    (sendOk : conn_id_t → Bool) (c : Conn) : Option Conn :=
  if lifetime ≤ inactive c.uid then some c
  else if sendOk c.cid then some { c with liveness := .awaitingPong }
  else none

/-- Action the first watchdog phase emits for one snapshotted connection. -/
def watchdogStepAction (lifetime : Nat) (inactive : user_id_t → Nat) (c : Conn) :
    WatchdogAction :=
  if lifetime ≤ inactive c.uid then
    .close c.cid STATUS_INACTIVE_CONNECTION (inactiveReason lifetime (inactive c.uid))
  else .ping c.cid

/-- Storage component of `watchdogStep` alone. -/
def watchdogStepStorage (lifetime : Nat) (inactive : user_id_t → Nat)
    (sendOk : conn_id_t → Bool) (st : Storage) (c : Conn) : Storage :=
  if lifetime ≤ inactive c.uid then st
  else if sendOk c.cid then markPongWait st c.cid
  else storageRemove st c.uid c.cid

/-- What processing the snapshotted connection `c` does to an arbitrary stored
entry `e`. -/
def stepFate (lifetime : Nat) (inactive : user_id_t → Nat)
    (sendOk : conn_id_t → Bool) (c e : Conn) : Option Conn :=
  if lifetime ≤ inactive c.uid then some e
  else if sendOk c.cid then
    some (if e.cid = c.cid then { e with liveness := .awaitingPong } else e)
  else if e.uid = c.uid ∧ e.cid = c.cid then none else some e

/-- What processing a whole snapshot list does to a stored entry. -/
def bigFate (lifetime : Nat) (inactive : user_id_t → Nat)
    (sendOk : conn_id_t → Bool) : List Conn → Conn → Option Conn
  | [], e => some e
  | c :: rest, e =>
    (stepFate lifetime inactive sendOk c e).bind (bigFate lifetime inactive sendOk rest)

end wss

open wss

/-- Lookup distributes over list append, first list first. -/
theorem assocFind_append {α β : Type} [DecidableEq α] (l1 l2 : List (α × β)) (k : α) :
    assocFind (l1 ++ l2) k =
      (match assocFind l1 k with
       | some v => some v
       | none => assocFind l2 k) := by
  induction l1 with
  | nil => simp [assocFind]
  | cons kv rest ih =>
    obtain ⟨k', v⟩ := kv
    by_cases h : k' = k <;> simp [assocFind, h, ih]

/-- Replacing a key rewrites exactly the value found under it. -/
theorem assocFind_replace_self {α β : Type} [DecidableEq α] (l : List (α × β)) (k : α) (v : β) :
    assocFind (assocReplace l k v) k = (assocFind l k).map (fun _ => v) := by
  induction l with
  | nil => simp [assocFind, assocReplace]
  | cons kv rest ih =>
    obtain ⟨k', w⟩ := kv
    by_cases h : k' = k
    · subst h
      simp only [assocReplace, if_pos rfl]
      simp [assocFind, ih]
    · simp only [assocReplace, if_neg h]
      simp [assocFind, h, ih]

/-- Replacing one key leaves the other keys' lookups unchanged. -/
theorem assocFind_replace_ne {α β : Type} [DecidableEq α] (l : List (α × β)) (k k' : α) (v : β)
    (h : k' ≠ k) : assocFind (assocReplace l k v) k' = assocFind l k' := by
  induction l with
  | nil => simp [assocFind, assocReplace]
  | cons kv rest ih =>
    obtain ⟨k'', w⟩ := kv
    by_cases h2 : k'' = k
    · subst h2
      simp only [assocReplace, if_pos rfl]
      simp [assocFind, Ne.symm h, ih]
    · simp only [assocReplace, if_neg h2]
      by_cases h3 : k'' = k'
      · subst h3
        simp [assocFind, ih]
      · simp [assocFind, h3, ih]

/-- Erasing a key makes its lookup empty. -/
theorem assocFind_erase_self {α β : Type} [DecidableEq α] (l : List (α × β)) (k : α) :
    assocFind (assocErase l k) k = none := by
  induction l with
  | nil => simp [assocFind, assocErase]
  | cons kv rest ih =>
    obtain ⟨k', v⟩ := kv
    by_cases h : k' = k
    · subst h
      simp [assocErase, ih]
    · simp only [assocErase, if_neg h]
      simp [assocFind, h, ih]

/-- Erasing one key leaves the other keys' lookups unchanged. -/
theorem assocFind_erase_ne {α β : Type} [DecidableEq α] (l : List (α × β)) (k k' : α)
    (h : k' ≠ k) : assocFind (assocErase l k) k' = assocFind l k' := by
  induction l with
  | nil => simp [assocFind, assocErase]
  | cons kv rest ih =>
    obtain ⟨k'', v⟩ := kv
    by_cases h2 : k'' = k
    · subst h2
      simp only [assocErase, if_pos rfl]
      simp [assocFind, Ne.symm h, ih]
    · simp only [assocErase, if_neg h2]
      by_cases h3 : k'' = k'
      · subst h3
        simp [assocFind, ih]
      · simp [assocFind, h3, ih]

/-- Updating a user's statistics applies the function to that user's record. -/
theorem getStatD_updateStat_self (stats : StatsMap) (uid : user_id_t)
    (f : Statistics → Statistics) :
    getStatD (updateStat stats uid f) uid = f (getStatD stats uid) := by
  unfold getStatD updateStat
  cases h : assocFind stats uid with
  | none => simp [assocFind_append, h, assocFind]
  | some s => simp [assocFind_replace_self, h]

/-- Pushing to a recipient's queue appends to exactly that queue. -/
theorem queueOf_pushQueue_self (q : UndeliveredMap) (uid : user_id_t) (p : MessagePayload) :
    queueOf (pushQueue q uid p) uid = queueOf q uid ++ [p] := by
  unfold queueOf pushQueue
  cases h : assocFind q uid with
  | none => simp [assocFind_append, h, assocFind]
  | some l => simp [assocFind_replace_self, h]

/-- Pushing to one recipient's queue leaves the other queues unchanged. -/
theorem queueOf_pushQueue_ne (q : UndeliveredMap) (uid v : user_id_t) (p : MessagePayload)
    (h : v ≠ uid) : queueOf (pushQueue q uid p) v = queueOf q v := by
  unfold queueOf pushQueue
  cases h2 : assocFind q uid with
  | none =>
    cases h3 : assocFind q v <;>
      simp [assocFind_append, h2, h3, assocFind, Ne.symm h]
  | some l => simp [assocFind_replace_ne _ _ _ _ h]

/-- Setting a recipient's queue overwrites exactly that queue. -/
theorem queueOf_setQueue_self (q : UndeliveredMap) (uid : user_id_t)
    (l : List MessagePayload) : queueOf (setQueue q uid l) uid = l := by
  unfold queueOf setQueue
  cases h : assocFind q uid with
  | none => simp [assocFind_append, h, assocFind]
  | some _ => simp [assocFind_replace_self, h]

/-- C8: a payload of the reserved sent-status type makes `onMessageSent` return
immediately: the statistics map is returned untouched and no delivery-status
payload is constructed, for every delivery-status setting and `hasSent` flag. -/
theorem onMessageSent_sent_status_noop (cfg : ChatConfig) (p : MessagePayload)
    (bytes : Nat) (hasSent : Bool) (stats : StatsMap)
    (h : p.isTypeOfSentStatus = true) :
    onMessageSent cfg p bytes hasSent stats = (stats, none) := by
  simp [onMessageSent, h]

/-- Witness for C8: the sent-status acknowledgement of a concrete message is
itself of the sent-status type, and `onMessageSent` on it changes nothing even
with delivery status on and a successful send. -/
theorem onMessageSent_sent_status_noop_witness :
    (MessagePayload.createSendStatus (parseStub "hi")).isTypeOfSentStatus = true
    ∧ onMessageSent { enableMessageDeliveryStatus := true }
        (MessagePayload.createSendStatus (parseStub "hi")) 42 true
        [(1, { sentCount := 3 })]
      = ([(1, { sentCount := 3 })], none) :=
  ⟨by decide,
   onMessageSent_sent_status_noop { enableMessageDeliveryStatus := true }
     (MessagePayload.createSendStatus (parseStub "hi")) 42 true
     [(1, { sentCount := 3 })] (by decide)⟩

/-- C9: with no frame-buffer entry for the sender, `readFrameBuffer` returns
the empty string and leaves the buffer untouched (no entry is created), and a
FRAGMENT_END frame arriving without a preceding BEGIN is handled as a complete
payload consisting of exactly the END frame's own bytes. -/
theorem readFrameBuffer_absent_empty (cfg : ChatConfig) (parse : String → MessagePayload)
    (sender : user_id_t) (fb : FrameBuffer) (bytes : String) (clear : Bool)
    (h : hasFrameBuffer fb sender = false) :
    readFrameBuffer fb sender clear = ("", fb)
    ∧ onMessage cfg parse sender fb FLAG_FRAGMENT_END bytes =
        (if bytes.length > cfg.maxMessageSize then
          ⟨fb, [.close STATUS_MESSAGE_TOO_BIG
            ("Message to big. Maximum size: " ++ humanReadableBytes cfg.maxMessageSize)]⟩
        else finishPayload cfg (parse bytes) fb) := by
  have hfind : assocFind fb sender = none := by
    unfold hasFrameBuffer at h
    cases hf : assocFind fb sender
    · rfl
    · rw [hf] at h
      simp at h
  constructor
  · simp [readFrameBuffer, hfind]
  · simp [onMessage, FLAG_FRAGMENT_END, FLAG_FRAME_TEXT, FLAG_FRAME_BINARY,
      FLAG_FRAGMENT_BEGIN_TEXT, FLAG_FRAGMENT_BEGIN_BINARY, FLAG_FRAGMENT_CONTINUE,
      readFrameBuffer, hfind]

/-- Witness for C9: a fresh sender's END frame with body `xy` under the
default 10M limit yields the payload parsed from exactly `xy`. -/
theorem readFrameBuffer_absent_empty_witness :
    hasFrameBuffer ([] : FrameBuffer) 4 = false
    ∧ readFrameBuffer ([] : FrameBuffer) 4 true = ("", [])
    ∧ onMessage {} parseStub 4 [] FLAG_FRAGMENT_END "xy" =
        (if ("xy".length > ({} : ChatConfig).maxMessageSize) then
          ⟨[], [.close STATUS_MESSAGE_TOO_BIG
            ("Message to big. Maximum size: " ++ humanReadableBytes ({} : ChatConfig).maxMessageSize)]⟩
        else finishPayload {} (parseStub "xy") []) :=
  ⟨by decide,
   (readFrameBuffer_absent_empty {} parseStub 4 [] "xy" true (by decide)).1,
   (readFrameBuffer_absent_empty {} parseStub 4 [] "xy" true (by decide)).2⟩

/-- C10: `onDisconnected` for a user id with no entry in the connection
storage returns the state unchanged (no disconnection counter increment, no
removal); when the user exists it removes the connection and increments
exactly the disconnection counter of that user. -/
theorem onDisconnected_absent_noop (uid : user_id_t) (cid : conn_id_t) (st : ChatState) :
    (storageExists st.storage uid = false → onDisconnected uid cid st = st)
    ∧ (storageExists st.storage uid = true →
        (onDisconnected uid cid st).storage = storageRemove st.storage uid cid
        ∧ (onDisconnected uid cid st).undelivered = st.undelivered
        ∧ getStatD (onDisconnected uid cid st).statistics uid =
            { getStatD st.statistics uid with
              disconnections := (getStatD st.statistics uid).disconnections + 1 }) := by
  constructor
  · intro h
    simp [onDisconnected, h]
  · intro h
    refine ⟨?_, ?_, ?_⟩ <;> simp [onDisconnected, h, getStatD_updateStat_self]

/-- Witness for C10: disconnecting user 5 while only user 7 is registered
changes nothing. -/
theorem onDisconnected_absent_noop_witness :
    storageExists [⟨7, 1, Liveness.active⟩] 5 = false
    ∧ onDisconnected 5 9 ⟨[⟨7, 1, Liveness.active⟩], [], []⟩ =
        ⟨[⟨7, 1, Liveness.active⟩], [], []⟩ :=
  ⟨by decide, (onDisconnected_absent_noop 5 9 ⟨[⟨7, 1, Liveness.active⟩], [], []⟩).1 (by decide)⟩

/-- Draining loop invariant: the while-loop pops the whole queue, in order. -/
theorem redeliverLoop_eq (l : List MessagePayload) : redeliverLoop l = (l.length, l) := by
  induction l with
  | nil => rfl
  | cons p rest ih => simp [redeliverLoop, ih]

/-- C6: `redeliverMessagesTo` with the undelivered-queue feature enabled pops
and routes all queued payloads in insertion order, empties the recipient's
queue, returns their number, and touches neither the storage nor the
statistics; with the feature disabled it returns 0 and changes nothing. -/
theorem redeliverMessagesTo_drains (cfg : ChatConfig) (uid : user_id_t) (st : ChatState) :
    (cfg.enableUndeliveredQueue = true →
        (redeliverMessagesTo cfg uid st).1 = (queueOf st.undelivered uid).length
        ∧ (redeliverMessagesTo cfg uid st).2.2 = queueOf st.undelivered uid
        ∧ queueOf (redeliverMessagesTo cfg uid st).2.1.undelivered uid = []
        ∧ (redeliverMessagesTo cfg uid st).2.1.storage = st.storage
        ∧ (redeliverMessagesTo cfg uid st).2.1.statistics = st.statistics)
    ∧ (cfg.enableUndeliveredQueue = false →
        redeliverMessagesTo cfg uid st = (0, st, [])) := by
  constructor
  · intro h
    cases hq : queueOf st.undelivered uid with
    | nil => simp [redeliverMessagesTo, h, hq]
    | cons a l =>
      simp [redeliverMessagesTo, h, hq, redeliverLoop_eq, queueOf_setQueue_self]
  · intro h
    simp [redeliverMessagesTo, h]

/-- Witness for C6: user 5 reconnects with two queued payloads; both are
routed in order and the queue ends empty. -/
theorem redeliverMessagesTo_drains_witness :
    (redeliverMessagesTo {} 5 ⟨[], [(5, [parseStub "a", parseStub "b"])], []⟩).1
        = (queueOf [(5, [parseStub "a", parseStub "b"])] 5).length
    ∧ (redeliverMessagesTo {} 5 ⟨[], [(5, [parseStub "a", parseStub "b"])], []⟩).2.2
        = queueOf [(5, [parseStub "a", parseStub "b"])] 5
    ∧ queueOf (redeliverMessagesTo {} 5
        ⟨[], [(5, [parseStub "a", parseStub "b"])], []⟩).2.1.undelivered 5 = [] := by
  have h := (redeliverMessagesTo_drains {} 5
    ⟨[], [(5, [parseStub "a", parseStub "b"])], []⟩).1 rfl
  exact ⟨h.1, h.2.1, h.2.2.1⟩

/-- A failed send never produces a delivery-status payload. -/
theorem onMessageSent_failed_no_status (cfg : ChatConfig) (p : MessagePayload)
    (bytes : Nat) (stats : StatsMap) :
    (onMessageSent cfg p bytes false stats).2 = none := by
  by_cases h : p.isTypeOfSentStatus = true <;> simp [onMessageSent, h]

/-- C4: `sendTo` toward a recipient with no live connection: with the
undelivered queue enabled exactly one copy of the payload, its recipient set
restricted to the target, is appended to the target's queue (other queues
unchanged); with the feature disabled the queue map is untouched; in both
cases the only action is the failed-send accounting event — no socket send is
attempted — and the storage is unchanged. -/
theorem sendTo_offline_queues (cfg : ChatConfig) (uid : user_id_t)
    (p : MessagePayload) (st : ChatState) (h : storageSize st.storage uid = 0) :
    (cfg.enableUndeliveredQueue = true →
        queueOf (sendTo cfg uid p st).1.undelivered uid
          = queueOf st.undelivered uid ++ [p.setRecipient uid]
        ∧ ∀ v, v ≠ uid →
            queueOf (sendTo cfg uid p st).1.undelivered v = queueOf st.undelivered v)
    ∧ (cfg.enableUndeliveredQueue = false →
        (sendTo cfg uid p st).1.undelivered = st.undelivered)
    ∧ (sendTo cfg uid p st).2 =
        [.accounting (p.setRecipient uid) p.toJson.length false]
    ∧ (sendTo cfg uid p st).1.storage = st.storage
    ∧ (p.setRecipient uid).recipients = [uid] := by
  refine ⟨?_, ?_, ?_, ?_, rfl⟩
  · intro he
    constructor
    · simp [sendTo, h, handleUndeliverable, he, enqueueUndeliveredMessage,
        MessagePayload.setRecipient, MessagePayload.getRecipients, queueOf_pushQueue_self]
    · intro v hv
      simp [sendTo, h, handleUndeliverable, he, enqueueUndeliveredMessage,
        MessagePayload.setRecipient, MessagePayload.getRecipients,
        queueOf_pushQueue_ne _ _ _ _ hv]
  · intro he
    simp [sendTo, h, handleUndeliverable, he]
  · simp [sendTo, h, onMessageSent_failed_no_status]
  · simp [sendTo, h, handleUndeliverable]
    by_cases he : cfg.enableUndeliveredQueue = true <;> simp [he]

/-- Witness for C4: routing to offline user 9 while only user 2 is connected
queues exactly one single-recipient copy and records the failed-send
accounting event. -/
theorem sendTo_offline_queues_witness :
    storageSize [⟨2, 1, Liveness.active⟩] 9 = 0
    ∧ queueOf (sendTo {} 9 (parseStub "x")
          ⟨[⟨2, 1, Liveness.active⟩], [], []⟩).1.undelivered 9
        = queueOf ([] : UndeliveredMap) 9 ++ [(parseStub "x").setRecipient 9]
    ∧ (sendTo {} 9 (parseStub "x") ⟨[⟨2, 1, Liveness.active⟩], [], []⟩).2
        = [.accounting ((parseStub "x").setRecipient 9) (parseStub "x").toJson.length false] := by
  have h := sendTo_offline_queues {} 9 (parseStub "x")
    ⟨[⟨2, 1, Liveness.active⟩], [], []⟩ (by decide)
  exact ⟨by decide, (h.1 rfl).1, h.2.2.1⟩

/-- A BEGIN write leaves exactly the written chunk in the sender's buffer. -/
theorem assocFind_write_clear (fb : FrameBuffer) (s : user_id_t) (input : String) :
    assocFind (writeFrameBuffer fb s input true) s = some input := by
  unfold writeFrameBuffer
  cases h : assocFind fb s with
  | none => simp [assocFind]
  | some old => simp [assocFind_replace_self, h]

/-- A CONTINUE write appends the chunk to the sender's buffer. -/
theorem assocFind_write_append (fb : FrameBuffer) (s : user_id_t) (input : String) :
    assocFind (writeFrameBuffer fb s input false) s =
      some (((assocFind fb s).getD "") ++ input) := by
  unfold writeFrameBuffer
  cases h : assocFind fb s with
  | none =>
    simp only [assocFind, if_pos rfl, Option.getD_none]
    rfl
  | some old => simp [assocFind_replace_self, h]

/-- On a BEGIN frame `onMessage` only writes the buffer, clearing first. -/
theorem onMessage_begin_buffer (cfg : ChatConfig) (parse : String → MessagePayload)
    (sender : user_id_t) (fb : FrameBuffer) (b : String) :
    onMessage cfg parse sender fb FLAG_FRAGMENT_BEGIN_TEXT b =
      ⟨writeFrameBuffer fb sender b true, []⟩ := by
  simp [onMessage, FLAG_FRAGMENT_BEGIN_TEXT, FLAG_FRAME_TEXT, FLAG_FRAME_BINARY]

/-- On a CONTINUE frame `onMessage` only appends to the buffer. -/
theorem onMessage_continue_buffer (cfg : ChatConfig) (parse : String → MessagePayload)
    (sender : user_id_t) (fb : FrameBuffer) (b : String) :
    onMessage cfg parse sender fb FLAG_FRAGMENT_CONTINUE b =
      ⟨writeFrameBuffer fb sender b false, []⟩ := by
  simp [onMessage, FLAG_FRAGMENT_CONTINUE, FLAG_FRAME_TEXT, FLAG_FRAME_BINARY,
    FLAG_FRAGMENT_BEGIN_TEXT, FLAG_FRAGMENT_BEGIN_BINARY]

/-- Folding CONTINUE frames over the buffer accumulates their concatenation in
arrival order. -/
theorem assocFind_fold_continue (cfg : ChatConfig) (parse : String → MessagePayload)
    (sender : user_id_t) (bs : List String) :
    ∀ (fb : FrameBuffer) (acc : String), assocFind fb sender = some acc →
      assocFind
        (bs.foldl (fun f b => (onMessage cfg parse sender f FLAG_FRAGMENT_CONTINUE b).buffer) fb)
        sender
      = some (bs.foldl (· ++ ·) acc) := by
  induction bs with
  | nil =>
    intro fb acc h
    simpa using h
  | cons b rest ih =>
    intro fb acc h
    simp only [List.foldl_cons, onMessage_continue_buffer]
    have step : assocFind (writeFrameBuffer fb sender b false) sender = some (acc ++ b) := by
      rw [assocFind_write_append, h]
      rfl
    exact ih (writeFrameBuffer fb sender b false) (acc ++ b) step

/-- The common tail of `onMessage` never touches the frame buffer. -/
theorem finishPayload_buffer (cfg : ChatConfig) (p : MessagePayload) (fb : FrameBuffer) :
    (finishPayload cfg p fb).buffer = fb := by
  by_cases h : p.isValid = true <;> simp [finishPayload, h]

/-- C5: after a FRAGMENT_BEGIN frame with bytes `b0` and FRAGMENT_CONTINUE
frames with bytes `bs`, the FRAGMENT_END frame with bytes `bn` hands exactly
the concatenation `b0 ++ bs… ++ bn` (arrival order) to payload parsing, and
the sender's frame-buffer entry is erased afterwards. -/
theorem onMessage_reassembles_fragments (cfg : ChatConfig)
    (parse : String → MessagePayload) (sender : user_id_t) (fb : FrameBuffer)
    (b0 : String) (bs : List String) (bn : String)
    (h : (List.foldl (· ++ ·) b0 bs ++ bn).length ≤ cfg.maxMessageSize) :
    onMessage cfg parse sender
        (bs.foldl (fun f b => (onMessage cfg parse sender f FLAG_FRAGMENT_CONTINUE b).buffer)
          (onMessage cfg parse sender fb FLAG_FRAGMENT_BEGIN_TEXT b0).buffer)
        FLAG_FRAGMENT_END bn
      = finishPayload cfg (parse (List.foldl (· ++ ·) b0 bs ++ bn))
          (assocErase
            (bs.foldl (fun f b => (onMessage cfg parse sender f FLAG_FRAGMENT_CONTINUE b).buffer)
              (onMessage cfg parse sender fb FLAG_FRAGMENT_BEGIN_TEXT b0).buffer)
            sender)
    ∧ hasFrameBuffer
        (onMessage cfg parse sender
          (bs.foldl (fun f b => (onMessage cfg parse sender f FLAG_FRAGMENT_CONTINUE b).buffer)
            (onMessage cfg parse sender fb FLAG_FRAGMENT_BEGIN_TEXT b0).buffer)
          FLAG_FRAGMENT_END bn).buffer sender = false := by
  have hb : assocFind (onMessage cfg parse sender fb FLAG_FRAGMENT_BEGIN_TEXT b0).buffer sender
      = some b0 := by
    rw [onMessage_begin_buffer]
    exact assocFind_write_clear fb sender b0
  have h2 := assocFind_fold_continue cfg parse sender bs
    (onMessage cfg parse sender fb FLAG_FRAGMENT_BEGIN_TEXT b0).buffer b0 hb
  have hnot : ¬ ((List.foldl (· ++ ·) b0 bs ++ bn).length > cfg.maxMessageSize) :=
    Nat.not_lt.mpr h
  have hmain : onMessage cfg parse sender
      (bs.foldl (fun f b => (onMessage cfg parse sender f FLAG_FRAGMENT_CONTINUE b).buffer)
        (onMessage cfg parse sender fb FLAG_FRAGMENT_BEGIN_TEXT b0).buffer)
      FLAG_FRAGMENT_END bn
    = finishPayload cfg (parse (List.foldl (· ++ ·) b0 bs ++ bn))
        (assocErase
          (bs.foldl (fun f b => (onMessage cfg parse sender f FLAG_FRAGMENT_CONTINUE b).buffer)
            (onMessage cfg parse sender fb FLAG_FRAGMENT_BEGIN_TEXT b0).buffer)
          sender) := by
    simp only [onMessage_begin_buffer, onMessage_continue_buffer] at h2 ⊢
    simp [onMessage, FLAG_FRAGMENT_END, FLAG_FRAME_TEXT, FLAG_FRAME_BINARY,
      FLAG_FRAGMENT_BEGIN_TEXT, FLAG_FRAGMENT_BEGIN_BINARY, FLAG_FRAGMENT_CONTINUE,
      readFrameBuffer, h2, hnot]
    intro hlt
    exact absurd hlt (by simpa [String.length_append] using hnot)
  refine ⟨hmain, ?_⟩
  rw [hmain, finishPayload_buffer]
  simp [hasFrameBuffer, assocFind_erase_self]

/-- Witness for C5: BEGIN "ab", CONTINUE "cd", CONTINUE "ef", END "gh" parse
exactly "abcdefgh" and clear the buffer. -/
theorem onMessage_reassembles_fragments_witness :
    ((List.foldl (· ++ ·) "ab" ["cd", "ef"] ++ "gh").length ≤ ({} : ChatConfig).maxMessageSize)
    ∧ onMessage {} parseStub 3
        (["cd", "ef"].foldl
          (fun f b => (onMessage {} parseStub 3 f FLAG_FRAGMENT_CONTINUE b).buffer)
          (onMessage {} parseStub 3 [] FLAG_FRAGMENT_BEGIN_TEXT "ab").buffer)
        FLAG_FRAGMENT_END "gh"
      = finishPayload {} (parseStub (List.foldl (· ++ ·) "ab" ["cd", "ef"] ++ "gh"))
          (assocErase
            (["cd", "ef"].foldl
              (fun f b => (onMessage {} parseStub 3 f FLAG_FRAGMENT_CONTINUE b).buffer)
              (onMessage {} parseStub 3 [] FLAG_FRAGMENT_BEGIN_TEXT "ab").buffer)
            3) :=
  ⟨by decide,
   (onMessage_reassembles_fragments {} parseStub 3 [] "ab" ["cd", "ef"] "gh" (by decide)).1⟩

/-- Counterexample for C1: a single-frame TEXT message three bytes long under
a two-byte limit is not closed with MESSAGE_TOO_BIG — `onMessage` parses and
routes it; the size check does not run on the single-frame path. -/
theorem onMessage_oversize_single_frame_not_closed :
    ({ maxMessageSize := 2 } : ChatConfig).maxMessageSize < "abc".length
    ∧ onMessage { maxMessageSize := 2 } parseStub 7 [] FLAG_FRAME_TEXT "abc"
        = ⟨[], [MsgAction.route (parseStub "abc")]⟩ := by
  constructor
  · decide
  · rfl

/-- C1 (amended): the MESSAGE_TOO_BIG size check runs only on the bytes
reassembled at FRAGMENT_END — there, an oversize reassembly closes the
connection with MESSAGE_TOO_BIG and a human-readable size before any parsing
or routing — while single-frame TEXT and BINARY payloads are handed to parsing
with no size check in `onMessage` (the transport's own limit is outside this
handler). -/
theorem onMessage_size_check_fragment_only (cfg : ChatConfig)
    (parse : String → MessagePayload) (sender : user_id_t) (fb : FrameBuffer)
    (bytes : String) :
    (((readFrameBuffer fb sender true).1 ++ bytes).length > cfg.maxMessageSize →
      onMessage cfg parse sender fb FLAG_FRAGMENT_END bytes
        = ⟨(readFrameBuffer fb sender true).2,
           [.close STATUS_MESSAGE_TOO_BIG
             ("Message to big. Maximum size: " ++ humanReadableBytes cfg.maxMessageSize)]⟩)
    ∧ onMessage cfg parse sender fb FLAG_FRAME_TEXT bytes = finishPayload cfg (parse bytes) fb
    ∧ onMessage cfg parse sender fb FLAG_FRAME_BINARY bytes
        = finishPayload cfg (parse bytes) fb := by
  refine ⟨?_, ?_, ?_⟩
  · intro h
    simp [onMessage, FLAG_FRAGMENT_END, FLAG_FRAME_TEXT, FLAG_FRAME_BINARY,
      FLAG_FRAGMENT_BEGIN_TEXT, FLAG_FRAGMENT_BEGIN_BINARY, FLAG_FRAGMENT_CONTINUE]
    intro hle
    exact absurd (by simpa [String.length_append] using h) (by simpa using Nat.not_lt.mpr hle)
  · simp [onMessage, FLAG_FRAME_TEXT]
  · simp [onMessage, FLAG_FRAME_TEXT, FLAG_FRAME_BINARY]

/-- Witness for C1 (amended): a buffered "abcd" plus END byte "e" under a
two-byte limit closes with MESSAGE_TOO_BIG. -/
theorem onMessage_size_check_fragment_only_witness :
    ((readFrameBuffer [(7, "abcd")] 7 true).1 ++ "e").length
        > ({ maxMessageSize := 2 } : ChatConfig).maxMessageSize
    ∧ onMessage { maxMessageSize := 2 } parseStub 7 [(7, "abcd")] FLAG_FRAGMENT_END "e"
        = ⟨(readFrameBuffer [(7, "abcd")] 7 true).2,
           [.close STATUS_MESSAGE_TOO_BIG
             ("Message to big. Maximum size: "
               ++ humanReadableBytes ({ maxMessageSize := 2 } : ChatConfig).maxMessageSize)]⟩ :=
  ⟨by decide,
   (onMessage_size_check_fragment_only { maxMessageSize := 2 } parseStub 7
     [(7, "abcd")] "e").1 (by decide)⟩

/-- Counterexample for C2: an `id` value above ULONG_MAX makes `std::stoul`
throw `std::out_of_range`, which `onConnected` does not catch — the connection
is not closed with INVALID_QUERY_PARAMS (and is not registered either). -/
theorem onConnected_out_of_range_not_closed :
    stoul "99999999999999999999999" = .outOfRange
    ∧ onConnected {} true [("id", "99999999999999999999999")] 1 ⟨[], [], []⟩
        = (.threw "stoul", ⟨[], [], []⟩, []) := by
  constructor
  · decide
  · rfl

/-- C2 (amended): for a present, non-empty `id` query parameter, a parse
failure raising `std::invalid_argument` closes the connection with
INVALID_QUERY_PARAMS and a diagnostic reason; a numerically out-of-range value
instead raises an uncaught `std::out_of_range` that escapes the handler with
no close sent.  In both cases the state is unchanged: the connection is never
registered in the connection storage. -/
theorem onConnected_bad_id (cfg : ChatConfig) (params : Params) (cid : conn_id_t)
    (st : ChatState) (idStr : String)
    (hp : hasParam params "id" = true) (hgp : getParam params "id" = idStr)
    (hne : idStr ≠ "") :
    (stoul idStr = .invalidArg →
      onConnected cfg true params cid st
        = (.closed STATUS_INVALID_QUERY_PARAMS
            ("Passed invalid id: id=" ++ idStr ++ ". stoul"), st, []))
    ∧ (stoul idStr = .outOfRange →
      onConnected cfg true params cid st = (.threw "stoul", st, [])) := by
  have hnonempty : params.isEmpty = false := by
    cases params with
    | nil => simp [hasParam, assocFind] at hp
    | cons a l => rfl
  constructor
  · intro hs
    simp [onConnected, hnonempty, hp, hgp, hne, hs]
  · intro hs
    simp [onConnected, hnonempty, hp, hgp, hne, hs]

/-- Witness for C2 (amended): `?id=abc` is closed with INVALID_QUERY_PARAMS
and the storage stays empty. -/
theorem onConnected_bad_id_witness :
    stoul "abc" = .invalidArg
    ∧ onConnected {} true [("id", "abc")] 1 ⟨[], [], []⟩
        = (.closed STATUS_INVALID_QUERY_PARAMS "Passed invalid id: id=abc. stoul",
           ⟨[], [], []⟩, []) :=
  ⟨by decide,
   (onConnected_bad_id {} [("id", "abc")] 1 ⟨[], [], []⟩ "abc"
     (by decide) (by decide) (by decide)).1 (by decide)⟩

/-- Counterexample for C3: `from_json` does not recognize `enableSendBack` or
`ignoreTypesSendBack` anywhere under the chat group — a document setting them
(both flat and inside a `message` subgroup) parses to exactly the same
Settings as one without them — and even `maxSize` placed inside a
`chat.message` subgroup is ignored (the parser reads it from the flat chat
group), leaving the default "10M". -/
theorem from_json_ignores_sendback_options :
    from_json (.obj [("server", .obj []),
        ("chat", .obj [("maxSize", .str "2M"),
          ("enableSendBack", .bool true),
          ("ignoreTypesSendBack", .arr [.str "typing"]),
          ("message", .obj [("enableSendBack", .bool true)])])]) 4
      = from_json (.obj [("server", .obj []), ("chat", .obj [("maxSize", .str "2M")])]) 4
    ∧ (from_json (.obj [("server", .obj []),
          ("chat", .obj [("message", .obj [("maxSize", .str "5M")])])]) 4).map
        (fun s => s.chat.message.maxSize) = some "10M" := by
  constructor
  · rfl
  · rfl

/-- C3 (amended): `from_json` reads `maxSize`, `enableDeliveryStatus` and
`enableUndeliveredQueue` directly from the flat `chat` group (not a
`chat.message` subgroup), and recognizes no `enableSendBack` or
`ignoreTypesSendBack` option at all: whatever values those keys carry, the
resulting Settings is the same, and the parsed `wss::Chat` struct has no
send-back fields to change. -/
theorem from_json_chat_flat_options (ms : String) (d u : Bool) (v1 v2 : Json) (hc : Nat) :
    from_json (.obj [("server", .obj []),
        ("chat", .obj [("maxSize", .str ms), ("enableDeliveryStatus", .bool d),
          ("enableUndeliveredQueue", .bool u),
          ("enableSendBack", v1), ("ignoreTypesSendBack", v2)])]) hc
      = some { server := { workers := if hc = 0 then 2 else hc },
               chat := { message := { maxSize := ms, enableDeliveryStatus := d },
                         enableUndeliveredQueue := u } } := by
  rfl

/-- Step evaluation: an idle connection only gets a close action. -/
theorem watchdogStep_idle (lifetime : Nat) (inactive : user_id_t → Nat)
    (sendOk : conn_id_t → Bool) (acc : Storage × List WatchdogAction) (c : Conn)
    (h : lifetime ≤ inactive c.uid) :
    watchdogStep lifetime inactive sendOk acc c
      = (acc.1, acc.2 ++ [.close c.cid STATUS_INACTIVE_CONNECTION
          (inactiveReason lifetime (inactive c.uid))]) := by
  unfold watchdogStep
  rw [if_pos h]

/-- Step evaluation: a successful ping marks the connection awaiting-pong. -/
theorem watchdogStep_ping_ok (lifetime : Nat) (inactive : user_id_t → Nat)
    (sendOk : conn_id_t → Bool) (acc : Storage × List WatchdogAction) (c : Conn)
    (h1 : ¬ lifetime ≤ inactive c.uid) (h2 : sendOk c.cid = true) :
    watchdogStep lifetime inactive sendOk acc c
      = (markPongWait acc.1 c.cid, acc.2 ++ [.ping c.cid]) := by
  unfold watchdogStep
  rw [if_neg h1, if_pos h2]

/-- Step evaluation: a failed ping removes the connection. -/
theorem watchdogStep_ping_fail (lifetime : Nat) (inactive : user_id_t → Nat)
    (sendOk : conn_id_t → Bool) (acc : Storage × List WatchdogAction) (c : Conn)
    (h1 : ¬ lifetime ≤ inactive c.uid) (h2 : ¬ sendOk c.cid = true) :
    watchdogStep lifetime inactive sendOk acc c
      = (storageRemove acc.1 c.uid c.cid, acc.2 ++ [.ping c.cid]) := by
  unfold watchdogStep
  rw [if_neg h1, if_neg h2]

/-- Actions of one watchdog pass: one action per snapshotted connection, in
snapshot order. -/
theorem watchdogFold_actions (lifetime : Nat) (inactive : user_id_t → Nat)
    (sendOk : conn_id_t → Bool) (l : List Conn) :
    ∀ (st : Storage) (acts : List WatchdogAction),
      (l.foldl (watchdogStep lifetime inactive sendOk) (st, acts)).2
        = acts ++ l.map (watchdogStepAction lifetime inactive) := by
  induction l with
  | nil =>
    intro st acts
    simp
  | cons c rest ih =>
    intro st acts
    simp only [List.foldl_cons, List.map_cons]
    by_cases h1 : lifetime ≤ inactive c.uid
    · rw [watchdogStep_idle _ _ _ _ _ h1, ih]
      simp [watchdogStepAction, h1]
    · by_cases h2 : sendOk c.cid
      · rw [watchdogStep_ping_ok _ _ _ _ _ h1 h2, ih]
        simp [watchdogStepAction, h1]
      · rw [watchdogStep_ping_fail _ _ _ _ _ h1 h2, ih]
        simp [watchdogStepAction, h1]

/-- Storage after one watchdog pass equals folding the storage-only step. -/
theorem watchdogFold_storage (lifetime : Nat) (inactive : user_id_t → Nat)
    (sendOk : conn_id_t → Bool) (l : List Conn) :
    ∀ (st : Storage) (acts : List WatchdogAction),
      (l.foldl (watchdogStep lifetime inactive sendOk) (st, acts)).1
        = l.foldl (watchdogStepStorage lifetime inactive sendOk) st := by
  induction l with
  | nil =>
    intro st acts
    rfl
  | cons c rest ih =>
    intro st acts
    simp only [List.foldl_cons]
    by_cases h1 : lifetime ≤ inactive c.uid
    · rw [watchdogStep_idle _ _ _ _ _ h1]
      unfold watchdogStepStorage
      rw [if_pos h1]
      exact ih _ _
    · by_cases h2 : sendOk c.cid
      · rw [watchdogStep_ping_ok _ _ _ _ _ h1 h2]
        unfold watchdogStepStorage
        rw [if_neg h1, if_pos h2]
        exact ih _ _
      · rw [watchdogStep_ping_fail _ _ _ _ _ h1 h2]
        unfold watchdogStepStorage
        rw [if_neg h1, if_neg h2]
        exact ih _ _

/-- Marking one connection awaiting-pong, as a filterMap. -/
theorem markPongWait_filterMap (st : Storage) (cid : conn_id_t) :
    markPongWait st cid
      = st.filterMap (fun e =>
          some (if e.cid = cid then { e with liveness := .awaitingPong } else e)) := by
  rw [markPongWait]
  exact (congrFun (List.filterMap_eq_map
    (fun e : Conn => if e.cid = cid then { e with liveness := .awaitingPong } else e)) st).symm

/-- Removing one connection, as a filterMap. -/
theorem storageRemove_filterMap (st : Storage) (uid : user_id_t) (cid : conn_id_t) :
    storageRemove st uid cid
      = st.filterMap (fun e => if e.uid = uid ∧ e.cid = cid then none else some e) := by
  induction st with
  | nil => rfl
  | cons e rest ih =>
    unfold storageRemove at ih ⊢
    by_cases h : e.uid = uid ∧ e.cid = cid
    · have hbool : (e.uid == uid && e.cid == cid) = true := by
        simp only [Bool.and_eq_true, beq_iff_eq]
        exact h
      simp only [List.filter_cons, hbool, Bool.not_true, List.filterMap_cons]
      simp [h.1, h.2]
      simpa using ih
    · have hbool : (e.uid == uid && e.cid == cid) = false := by
        cases hx : (e.uid == uid && e.cid == cid)
        · rfl
        · exact absurd (by simpa [Bool.and_eq_true, beq_iff_eq] using hx) h
      simp only [List.filter_cons, hbool, Bool.not_false, List.filterMap_cons]
      simp [h]
      simpa using ih

/-- One storage-only watchdog step, as a filterMap by `stepFate`. -/
theorem watchdogStepStorage_filterMap (lifetime : Nat) (inactive : user_id_t → Nat)
    (sendOk : conn_id_t → Bool) (st : Storage) (c : Conn) :
    watchdogStepStorage lifetime inactive sendOk st c
      = st.filterMap (stepFate lifetime inactive sendOk c) := by
  unfold watchdogStepStorage stepFate
  by_cases h1 : lifetime ≤ inactive c.uid
  · simp [h1, List.filterMap_some]
  · by_cases h2 : sendOk c.cid
    · simp only [if_neg h1, if_pos h2]
      exact markPongWait_filterMap st c.cid
    · simp only [if_neg h1, if_neg h2]
      exact storageRemove_filterMap st c.uid c.cid

/-- Folding storage-only steps over a snapshot list composes the fates. -/
theorem foldl_stepStorage_filterMap (lifetime : Nat) (inactive : user_id_t → Nat)
    (sendOk : conn_id_t → Bool) (l : List Conn) :
    ∀ st : Storage,
      l.foldl (watchdogStepStorage lifetime inactive sendOk) st
        = st.filterMap (bigFate lifetime inactive sendOk l) := by
  induction l with
  | nil =>
    intro st
    have he : bigFate lifetime inactive sendOk [] = some := funext (fun e => rfl)
    rw [List.foldl_nil, he, List.filterMap_some]
  | cons c rest ih =>
    intro st
    simp only [List.foldl_cons]
    rw [watchdogStepStorage_filterMap, ih, List.filterMap_filterMap]
    rfl

/-- Processing snapshot entries with foreign connection ids leaves an entry
untouched. -/
theorem bigFate_skip (lifetime : Nat) (inactive : user_id_t → Nat)
    (sendOk : conn_id_t → Bool) (l : List Conn) (e : Conn)
    (h : e.cid ∉ l.map Conn.cid) :
    bigFate lifetime inactive sendOk l e = some e := by
  induction l with
  | nil => rfl
  | cons c rest ih =>
    rw [List.map_cons, List.mem_cons] at h
    push_neg at h
    obtain ⟨hc, hrest⟩ := h
    unfold bigFate stepFate
    by_cases h1 : lifetime ≤ inactive c.uid
    · rw [if_pos h1]
      exact ih hrest
    · by_cases h2 : sendOk c.cid
      · rw [if_neg h1, if_pos h2, if_neg hc]
        exact ih hrest
      · rw [if_neg h1, if_neg h2, if_neg (fun hx => hc hx.2)]
        exact ih hrest

/-- With process-wide unique connection ids, processing the whole snapshot
gives each member its per-connection fate. -/
theorem bigFate_mem (lifetime : Nat) (inactive : user_id_t → Nat)
    (sendOk : conn_id_t → Bool) (l : List Conn) (e : Conn)
    (hnd : (l.map Conn.cid).Nodup) (he : e ∈ l) :
    bigFate lifetime inactive sendOk l e = connFate lifetime inactive sendOk e := by
  induction l with
  | nil => cases he
  | cons c rest ih =>
    rw [List.map_cons, List.nodup_cons] at hnd
    obtain ⟨hcn, hrest⟩ := hnd
    rcases List.mem_cons.mp he with rfl | hin
    · unfold bigFate stepFate connFate
      by_cases h1 : lifetime ≤ inactive e.uid
      · rw [if_pos h1, if_pos h1]
        exact bigFate_skip lifetime inactive sendOk rest e hcn
      · by_cases h2 : sendOk e.cid
        · rw [if_neg h1, if_neg h1, if_pos h2, if_pos h2, if_pos rfl]
          exact bigFate_skip lifetime inactive sendOk rest
            { e with liveness := .awaitingPong } hcn
        · rw [if_neg h1, if_neg h1, if_neg h2, if_neg h2, if_pos ⟨rfl, rfl⟩]
          rfl
    · have hne : e.cid ≠ c.cid := by
        intro hh
        exact hcn (hh ▸ List.mem_map_of_mem Conn.cid hin)
      unfold bigFate stepFate
      by_cases h1 : lifetime ≤ inactive c.uid
      · rw [if_pos h1]
        exact ih hrest hin
      · by_cases h2 : sendOk c.cid
        · rw [if_neg h1, if_pos h2, if_neg hne]
          exact ih hrest hin
        · rw [if_neg h1, if_neg h2, if_neg (fun hx => hne hx.2)]
          exact ih hrest hin

/-- The per-connection fate preserves the connection id. -/
theorem connFate_cid (lifetime : Nat) (inactive : user_id_t → Nat)
    (sendOk : conn_id_t → Bool) (c e : Conn)
    (h : connFate lifetime inactive sendOk c = some e) : e.cid = c.cid := by
  unfold connFate at h
  split at h
  · cases h
    rfl
  · split at h
    · cases h
      rfl
    · cases h

/-- First watchdog phase on a snapshot with unique connection ids: the storage
maps each connection to its fate and one action is emitted per connection. -/
theorem watchdogPhase1_spec (lifetime : Nat) (inactive : user_id_t → Nat)
    (sendOk : conn_id_t → Bool) (storage : Storage)
    (hnd : (storage.map Conn.cid).Nodup) :
    watchdogPhase1 lifetime inactive sendOk storage
      = (storage.filterMap (connFate lifetime inactive sendOk),
         storage.map (watchdogStepAction lifetime inactive)) := by
  unfold watchdogPhase1
  apply Prod.ext
  · rw [watchdogFold_storage, foldl_stepStorage_filterMap]
    induction storage with
    | nil => rfl
    | cons c rest ih => exact List.filterMap_congr (fun a ha =>
        bigFate_mem lifetime inactive sendOk (c :: rest) a hnd ha)
  · rw [watchdogFold_actions]
    rfl

/-- C7: one watchdog tick over a snapshot with unique connection ids: every
connection of a user inactive at least `lifetime` seconds gets a close with
INACTIVE_CONNECTION whose reason carries the actual inactive duration; every
other connection gets a PING and is removed from storage when the send fails;
a successfully pinged connection survives (as active) exactly when its pong
arrives within the window, and is disconnected otherwise; afterwards no
connection is still awaiting a pong and the returned count is the number of
connections still awaiting one at `disconnectWithoutPong` time. -/
theorem watchdogTick_spec (lifetime : Nat) (inactive : user_id_t → Nat)
    (sendOk pong : conn_id_t → Bool) (storage : Storage)
    (hnd : (storage.map Conn.cid).Nodup) :
    (∀ c ∈ storage, lifetime ≤ inactive c.uid →
        WatchdogAction.close c.cid STATUS_INACTIVE_CONNECTION
          (inactiveReason lifetime (inactive c.uid))
          ∈ (watchdogTick lifetime inactive sendOk pong storage).2.1)
    ∧ (∀ c ∈ storage, inactive c.uid < lifetime →
        WatchdogAction.ping c.cid
          ∈ (watchdogTick lifetime inactive sendOk pong storage).2.1
        ∧ (sendOk c.cid = false →
            ∀ e ∈ (watchdogTick lifetime inactive sendOk pong storage).1, e.cid ≠ c.cid)
        ∧ (sendOk c.cid = true → pong c.cid = true →
            ({ c with liveness := Liveness.active } : Conn)
              ∈ (watchdogTick lifetime inactive sendOk pong storage).1)
        ∧ (sendOk c.cid = true → pong c.cid = false →
            ∀ e ∈ (watchdogTick lifetime inactive sendOk pong storage).1, e.cid ≠ c.cid))
    ∧ (∀ e ∈ (watchdogTick lifetime inactive sendOk pong storage).1,
        e.liveness ≠ Liveness.awaitingPong)
    ∧ (watchdogTick lifetime inactive sendOk pong storage).2.2
        = ((applyPongs pong (watchdogPhase1 lifetime inactive sendOk storage).1).filter
            (fun c => c.liveness == Liveness.awaitingPong)).length := by
  have hphase := watchdogPhase1_spec lifetime inactive sendOk storage hnd
  have hacts : (watchdogTick lifetime inactive sendOk pong storage).2.1
      = storage.map (watchdogStepAction lifetime inactive) := by
    show (watchdogPhase1 lifetime inactive sendOk storage).2 = _
    rw [hphase]
  have hfinal : (watchdogTick lifetime inactive sendOk pong storage).1
      = (applyPongs pong
          (storage.filterMap (connFate lifetime inactive sendOk))).filter
          (fun c => c.liveness != Liveness.awaitingPong) := by
    show (disconnectWithoutPong (applyPongs pong
      (watchdogPhase1 lifetime inactive sendOk storage).1)).2 = _
    rw [hphase]
    rfl
  refine ⟨?_, ?_, ?_, rfl⟩
  · intro c hc hidle
    rw [hacts]
    refine List.mem_map.mpr ⟨c, hc, ?_⟩
    unfold watchdogStepAction
    rw [if_pos hidle]
  · intro c hc hlt
    have hnle : ¬ lifetime ≤ inactive c.uid := Nat.not_le.mpr hlt
    refine ⟨?_, ?_, ?_, ?_⟩
    · rw [hacts]
      refine List.mem_map.mpr ⟨c, hc, ?_⟩
      unfold watchdogStepAction
      rw [if_neg hnle]
    · intro hso e he
      rw [hfinal] at he
      obtain ⟨hea, _hlive⟩ := List.mem_filter.mp he
      unfold applyPongs at hea
      obtain ⟨e1, he1, heq⟩ := List.mem_map.mp hea
      obtain ⟨a, ha, hfa⟩ := List.mem_filterMap.mp he1
      intro hcid
      have hcid1 : e.cid = e1.cid := by
        rw [← heq]
        by_cases hpp : pong e1.cid <;> simp [hpp]
      have hcid2 : e1.cid = a.cid := connFate_cid _ _ _ _ _ hfa
      have hac : a = c :=
        List.inj_on_of_nodup_map hnd ha hc (by rw [← hcid2, ← hcid1, hcid])
      rw [hac] at hfa
      unfold connFate at hfa
      rw [if_neg hnle, if_neg (by simp [hso])] at hfa
      cases hfa
    · intro hso hp
      rw [hfinal]
      apply List.mem_filter.mpr
      constructor
      · unfold applyPongs
        refine List.mem_map.mpr ⟨{ c with liveness := Liveness.awaitingPong }, ?_, ?_⟩
        · refine List.mem_filterMap.mpr ⟨c, hc, ?_⟩
          unfold connFate
          rw [if_neg hnle, if_pos hso]
        · simp [hp]
      · rfl
    · intro hso hp e he
      rw [hfinal] at he
      obtain ⟨hea, hlive⟩ := List.mem_filter.mp he
      unfold applyPongs at hea
      obtain ⟨e1, he1, heq⟩ := List.mem_map.mp hea
      obtain ⟨a, ha, hfa⟩ := List.mem_filterMap.mp he1
      intro hcid
      have hcid1 : e.cid = e1.cid := by
        rw [← heq]
        by_cases hpp : pong e1.cid <;> simp [hpp]
      have hcid2 : e1.cid = a.cid := connFate_cid _ _ _ _ _ hfa
      have hac : a = c :=
        List.inj_on_of_nodup_map hnd ha hc (by rw [← hcid2, ← hcid1, hcid])
      rw [hac] at hfa
      unfold connFate at hfa
      rw [if_neg hnle, if_pos hso] at hfa
      cases hfa
      simp [hp] at heq
      rw [← heq] at hlive
      simp at hlive
  · intro e he
    rw [hfinal] at he
    have hlive := (List.mem_filter.mp he).2
    simpa using hlive

/-- Witness for C7: three connections — user 1 idle 9s under a 5s lifetime
(closed), user 2 pinged successfully and ponging (stays active), user 3 whose
ping send fails (removed). -/
theorem watchdogTick_spec_witness :
    (([⟨1, 10, Liveness.active⟩, ⟨2, 20, Liveness.active⟩,
        ⟨3, 30, Liveness.active⟩] : Storage).map Conn.cid).Nodup
    ∧ WatchdogAction.close 10 STATUS_INACTIVE_CONNECTION (inactiveReason 5 9)
        ∈ (watchdogTick 5 (fun u => if u = 1 then 9 else 0)
            (fun cid => decide (cid ≠ 30)) (fun cid => decide (cid = 20))
            [⟨1, 10, Liveness.active⟩, ⟨2, 20, Liveness.active⟩,
             ⟨3, 30, Liveness.active⟩]).2.1
    ∧ ({ uid := 2, cid := 20, liveness := Liveness.active } : Conn)
        ∈ (watchdogTick 5 (fun u => if u = 1 then 9 else 0)
            (fun cid => decide (cid ≠ 30)) (fun cid => decide (cid = 20))
            [⟨1, 10, Liveness.active⟩, ⟨2, 20, Liveness.active⟩,
             ⟨3, 30, Liveness.active⟩]).1
    ∧ (∀ e ∈ (watchdogTick 5 (fun u => if u = 1 then 9 else 0)
            (fun cid => decide (cid ≠ 30)) (fun cid => decide (cid = 20))
            [⟨1, 10, Liveness.active⟩, ⟨2, 20, Liveness.active⟩,
             ⟨3, 30, Liveness.active⟩]).1, e.cid ≠ 30) := by
  have h := watchdogTick_spec 5 (fun u => if u = 1 then 9 else 0)
    (fun cid => decide (cid ≠ 30)) (fun cid => decide (cid = 20))
    [⟨1, 10, Liveness.active⟩, ⟨2, 20, Liveness.active⟩, ⟨3, 30, Liveness.active⟩]
    (by decide)
  refine ⟨by decide, ?_, ?_, ?_⟩
  · exact h.1 ⟨1, 10, Liveness.active⟩ (by decide) (by decide)
  · exact (h.2.1 ⟨2, 20, Liveness.active⟩ (by decide) (by decide)).2.2.1
      (by decide) (by decide)
  · exact fun e he =>
      (h.2.1 ⟨3, 30, Liveness.active⟩ (by decide) (by decide)).2.1 (by decide) e he
